import Mathlib

/-!
Shallow embedding of the MaydivCRM backend core:
  * `src/config/database.js` — the Storage Gateway (connection handle lifecycle,
    schema initialization with the swallowed add-column step);
  * `src/server.js` — the SEO Resource API (list / get-by-path / create /
    update / delete handlers over the `seo` table).

The SQLite table is modelled as a `Store`: a list of `SeoRecord`s in rowid
(insertion) order together with the AUTOINCREMENT counter `nextId` and a
monotone clock `time` standing for CURRENT_TIMESTAMP.  The constraints the
handlers can hit (`pagePath TEXT UNIQUE NOT NULL`, `NOT NULL` on the three
title/description columns) are modelled explicitly: a violated constraint
makes the statement fail, which the handlers catch and map to HTTP 500.
-/

namespace Maydiv

/-! ## Storage Gateway (src/config/database.js) -/

/-- The live connection handle produced by `new Database(...)`. -/
structure DbHandle where
  file : String
deriving Repr, DecidableEq

/-- Environment facts that decide which steps of `initializeDatabase` fail:
whether opening the database file fails, and whether the `content` column
already exists (making `ALTER TABLE seo ADD COLUMN content TEXT` fail). -/
structure InitEnv where
  openFails : Bool
  contentColumnExists : Bool
deriving Repr, DecidableEq

def dbFile : String := "../data/maydiv.db"

/-- `initializeDatabase`: opens the store (failure propagated by the
re-throwing catch), runs `CREATE TABLE IF NOT EXISTS seo (...)` (idempotent),
then tries `ALTER TABLE seo ADD COLUMN content TEXT` inside its own
try/catch whose catch block ignores the error.  Returns the thrown error or
the handle, together with the new value of the module-level `db` variable. -/
def initializeDatabase (env : InitEnv) (db : Option DbHandle) :
    Except String DbHandle × Option DbHandle :=
  if env.openFails then
    (Except.error "Database initialization error", db)
  else
    let h : DbHandle := ⟨dbFile⟩
    -- CREATE TABLE IF NOT EXISTS: cannot fail once the store is open.
    -- ALTER TABLE ... ADD COLUMN: when env.contentColumnExists the statement
    -- fails, but the surrounding catch swallows the error unconditionally.
    (Except.ok h, some h)

/-- `getDatabase`: throws when the module-level `db` is still unset. -/
def getDatabase (db : Option DbHandle) : Except String DbHandle :=
  match db with
  | none => Except.error "Database not initialized. Call initializeDatabase() first."
  | some h => Except.ok h

/-! ## Data model (table `seo`) -/

/-- One row of the `seo` table.  `NOT NULL` columns are `String`/`Nat`/`Bool`,
nullable columns are `Option String`.  Timestamps are clock readings. -/
structure SeoRecord where
  id : Nat
  pagePath : String
  pageTitle : String
  metaTitle : String
  metaDescription : String
  content : Option String
  keywords : Option String
  canonicalUrl : Option String
  ogTitle : Option String
  ogDescription : Option String
  ogImage : Option String
  twitterTitle : Option String
  twitterDescription : Option String
  twitterImage : Option String
  robots : Option String
  seoScore : Int
  isPublished : Bool
  createdAt : Nat
  updatedAt : Nat
deriving Repr, DecidableEq

/-- The fields the create and update handlers destructure from `req.body`.
Each string field is three-valued: `none` is an absent JSON field (JS
undefined — better-sqlite3 refuses to bind it and `.run` throws a
TypeError), `some none` is an explicit JSON null (bound as SQL NULL),
`some (some s)` is a string value.  `seoScore` is coerced by
`seoScore || 0` before binding, which sends absent, null and 0 all to 0, so
it is flattened to `Option Int` with `getD 0`.  The handlers read no other
body field; in particular `isPublished` is never read. -/
structure SeoBody where
  pagePath : Option (Option String)
  pageTitle : Option (Option String)
  metaTitle : Option (Option String)
  metaDescription : Option (Option String)
  content : Option (Option String)
  keywords : Option (Option String)
  canonicalUrl : Option (Option String)
  ogTitle : Option (Option String)
  ogDescription : Option (Option String)
  ogImage : Option (Option String)
  twitterTitle : Option (Option String)
  twitterDescription : Option (Option String)
  twitterImage : Option (Option String)
  robots : Option (Option String)
  seoScore : Option Int
deriving Repr, DecidableEq

/-- The synthesized fallback object of the get-by-path handler (its literal
field list: no id, no pageTitle, no content, a `twitterCard` field instead of
the three twitter columns). -/
structure FallbackSeo where
  pagePath : String
  metaTitle : String
  metaDescription : String
  keywords : String
  canonicalUrl : String
  ogTitle : String
  ogDescription : String
  ogImage : String
  twitterCard : String
  robots : String
  seoScore : Int
  isPublished : Bool
deriving Repr, DecidableEq

/-- The JSON payload a handler puts beside `success` in its response body. -/
inductive SeoPayload where
  | records (rs : List SeoRecord)
  | record (r : SeoRecord)
  | fallback (f : FallbackSeo)
  | message (s : String)
  | error (s : String)
deriving Repr, DecidableEq

/-- An HTTP response: status code, the `success` flag, and the payload. -/
structure Response where
  status : Nat
  success : Bool
  payload : SeoPayload
deriving Repr, DecidableEq

/-- The database state: rows in rowid (insertion) order, the AUTOINCREMENT
counter, and the clock read by CURRENT_TIMESTAMP. -/
structure Store where
  records : List SeoRecord
  nextId : Nat
  time : Nat
deriving Repr, DecidableEq

/-- Well-formedness the real store guarantees: `id` is a primary key (all ids
distinct) and AUTOINCREMENT keeps every stored id below the counter. -/
def Store.WF (s : Store) : Prop :=
  (s.records.map fun r => r.id).Nodup ∧ ∀ r ∈ s.records, r.id < s.nextId

instance (s : Store) : Decidable s.WF := by
  unfold Store.WF; infer_instance

/-- The UNIQUE invariant on `pagePath`. -/
def PathsUnique (s : Store) : Prop :=
  (s.records.map fun r => r.pagePath).Nodup

instance (s : Store) : Decidable (PathsUnique s) := by
  unfold PathsUnique; infer_instance

/-! ## SEO Resource API handlers (src/server.js) -/

/-- Comparison used by `ORDER BY createdAt DESC`. -/
def createdAtGe (a b : SeoRecord) : Prop :=
  b.createdAt ≤ a.createdAt

instance : DecidableRel createdAtGe := fun a b => Nat.decLe b.createdAt a.createdAt

instance : IsTotal SeoRecord createdAtGe :=
  ⟨fun a b => le_total b.createdAt a.createdAt⟩

instance : IsTrans SeoRecord createdAtGe :=
  ⟨fun _ _ _ hab hbc => le_trans hbc hab⟩

/-- `SELECT * FROM seo ORDER BY createdAt DESC`. -/
def orderByCreatedAtDesc (l : List SeoRecord) : List SeoRecord :=
  List.insertionSort createdAtGe l

/-- `GET /api/v1/seo`: list all records, newest first.  The handler only
reads; the store it leaves behind is returned to state that. -/
def listSeo (s : Store) : Response × Store :=
  ({ status := 200, success := true,
     payload := SeoPayload.records (orderByCreatedAtDesc s.records) }, s)

/-- The fallback object built by the get-by-path handler: a pure function of
the requested path, never inserted into the store. -/
def fallbackSeo (pagePath : String) : FallbackSeo :=
  { pagePath := pagePath
    metaTitle := "MayDiv - " ++ pagePath
    metaDescription := "Digital Agency Services"
    keywords := "digital agency, web design, development"
    canonicalUrl := "https://maydiv.com" ++ pagePath
    ogTitle := "MayDiv - " ++ pagePath
    ogDescription := "Digital Agency Services"
    ogImage := "https://maydiv.com/og-image.jpg"
    twitterCard := "summary_large_image"
    robots := "index, follow"
    seoScore := 85
    isPublished := true }

/-- `GET /api/v1/seo/page/:pagePath`:
`SELECT * FROM seo WHERE pagePath = ? AND isPublished = 1` (`.get` takes the
first row in rowid order); on no row, respond 200 with the fallback object. -/
def getSeoByPage (s : Store) (pagePath : String) : Response × Store :=
  match s.records.find? (fun r => r.pagePath == pagePath && r.isPublished) with
  | some r => ({ status := 200, success := true, payload := SeoPayload.record r }, s)
  | none =>
    ({ status := 200, success := true,
       payload := SeoPayload.fallback (fallbackSeo pagePath) }, s)

/-- The bind-time check of better-sqlite3: every destructured string field
handed to `.run` must be a defined value (string or null).  An absent field
is JS undefined and makes `.run` throw a TypeError before the statement
executes; the handler catches it and answers 500.  `seoScore` is exempt
because `seoScore || 0` already replaced undefined with 0. -/
def noUndefinedBinds (b : SeoBody) : Bool :=
  b.pagePath.isSome && b.pageTitle.isSome && b.metaTitle.isSome &&
    b.metaDescription.isSome && b.content.isSome && b.keywords.isSome &&
    b.canonicalUrl.isSome && b.ogTitle.isSome && b.ogDescription.isSome &&
    b.ogImage.isSome && b.twitterTitle.isSome &&
    b.twitterDescription.isSome && b.twitterImage.isSome && b.robots.isSome

/-- The NOT NULL columns the INSERT/UPDATE statements bind from the body:
`pagePath`, `pageTitle`, `metaTitle`, `metaDescription`.  Binding NULL there
makes the statement fail with a NOT NULL constraint violation at
execution. -/
def requiredPresent (b : SeoBody) : Bool :=
  b.pagePath.join.isSome && b.pageTitle.join.isSome &&
    b.metaTitle.join.isSome && b.metaDescription.join.isSome

/-- The error message of the TypeError better-sqlite3 throws on an
undefined bind parameter. -/
def bindErrorMsg : String :=
  "SQLite3 can only bind numbers, strings, bigints, buffers, and null"

/-- The row the INSERT statement produces: body values with `isPublished`
forced to 1, `seoScore || 0`, the AUTOINCREMENT id and the current clock in
both timestamp columns. -/
def newRecord (s : Store) (b : SeoBody) : SeoRecord :=
  { id := s.nextId
    pagePath := b.pagePath.join.getD ""
    pageTitle := b.pageTitle.join.getD ""
    metaTitle := b.metaTitle.join.getD ""
    metaDescription := b.metaDescription.join.getD ""
    content := b.content.join
    keywords := b.keywords.join
    canonicalUrl := b.canonicalUrl.join
    ogTitle := b.ogTitle.join
    ogDescription := b.ogDescription.join
    ogImage := b.ogImage.join
    twitterTitle := b.twitterTitle.join
    twitterDescription := b.twitterDescription.join
    twitterImage := b.twitterImage.join
    robots := b.robots.join
    seoScore := b.seoScore.getD 0
    isPublished := true
    createdAt := s.time
    updatedAt := s.time }

/-- `POST /api/v1/seo`: INSERT with `isPublished` forced to 1,
`seoScore || 0`, both timestamps CURRENT_TIMESTAMP.  An absent destructured
field makes `.run` throw the undefined-bind TypeError before the statement
executes; a constraint violation at execution (NULL in a NOT NULL column,
or a duplicate `pagePath`) throws as well; either way the catch answers 500
with the store untouched.  On success the handler re-reads the row by
`lastInsertRowid`, which is the appended row. -/
def createSeo (s : Store) (b : SeoBody) : Response × Store :=
  if noUndefinedBinds b then
    if requiredPresent b &&
        !(s.records.any fun r => r.pagePath == b.pagePath.join.getD "") then
      ({ status := 201, success := true,
         payload := SeoPayload.record (newRecord s b) },
       { records := s.records ++ [newRecord s b], nextId := s.nextId + 1,
         time := s.time + 1 })
    else
      ({ status := 500, success := false,
         payload := SeoPayload.error "SQLITE_CONSTRAINT" }, s)
  else
    ({ status := 500, success := false,
       payload := SeoPayload.error bindErrorMsg }, s)

/-- The row produced by the UPDATE statement from an existing row: every
bound column is overwritten (`seoScore || 0`), `updatedAt` is refreshed, and
`id`, `createdAt` and `isPublished` — absent from the SET list — keep their
stored values. -/
def applyBody (r : SeoRecord) (b : SeoBody) (now : Nat) : SeoRecord :=
  { r with
    pagePath := b.pagePath.join.getD ""
    pageTitle := b.pageTitle.join.getD ""
    metaTitle := b.metaTitle.join.getD ""
    metaDescription := b.metaDescription.join.getD ""
    content := b.content.join
    keywords := b.keywords.join
    canonicalUrl := b.canonicalUrl.join
    ogTitle := b.ogTitle.join
    ogDescription := b.ogDescription.join
    ogImage := b.ogImage.join
    twitterTitle := b.twitterTitle.join
    twitterDescription := b.twitterDescription.join
    twitterImage := b.twitterImage.join
    robots := b.robots.join
    seoScore := b.seoScore.getD 0
    updatedAt := now }

/-- `PUT /api/v1/seo/:id`: UPDATE every bound column WHERE id = ?.  An
absent destructured field makes `.run` throw the undefined-bind TypeError
first — before the row count is computed — so such a request is a 500
whatever the id.  Otherwise zero affected rows gives `changes === 0`, hence
404 and an untouched store; a constraint violation on the affected row
(NULL in a NOT NULL column, or a `pagePath` equal to a different row's)
throws and is mapped to 500 with the store untouched.  On success the
handler re-reads the row by id; that row is the first matching row with its
columns overwritten, i.e. `applyBody` of the first row found by the WHERE
clause. -/
def updateSeo (s : Store) (i : Nat) (b : SeoBody) : Response × Store :=
  if noUndefinedBinds b then
    match s.records.find? (fun r => r.id == i) with
    | none =>
      ({ status := 404, success := false,
         payload := SeoPayload.error "SEO data not found" }, s)
    | some r =>
      if requiredPresent b && !(s.records.any fun r2 =>
          r2.id != i && r2.pagePath == b.pagePath.join.getD "") then
        let r' := applyBody r b s.time
        ({ status := 200, success := true, payload := SeoPayload.record r' },
         { records := s.records.map fun r2 =>
             if r2.id == i then applyBody r2 b s.time else r2
           nextId := s.nextId
           time := s.time + 1 })
      else
        ({ status := 500, success := false,
           payload := SeoPayload.error "SQLITE_CONSTRAINT" }, s)
  else
    ({ status := 500, success := false,
       payload := SeoPayload.error bindErrorMsg }, s)

/-- `DELETE /api/v1/seo/:id`: DELETE WHERE id = ?; zero affected rows gives
404 and an untouched store, otherwise 200 with a confirmation message. -/
def deleteSeo (s : Store) (i : Nat) : Response × Store :=
  if s.records.any (fun r => r.id == i) then
    ({ status := 200, success := true,
       payload := SeoPayload.message "SEO data deleted successfully" },
     { records := s.records.filter fun r => r.id != i
       nextId := s.nextId
       time := s.time })
  else
    ({ status := 404, success := false,
       payload := SeoPayload.error "SEO data not found" }, s)

/-! ## Concrete sample data for witnesses -/

def sampleRecord : SeoRecord :=
  { id := 1
    pagePath := "/about"
    pageTitle := "About"
    metaTitle := "About Us"
    metaDescription := "desc"
    content := none
    keywords := none
    canonicalUrl := none
    ogTitle := none
    ogDescription := none
    ogImage := none
    twitterTitle := none
    twitterDescription := none
    twitterImage := none
    robots := none
    seoScore := 0
    isPublished := true
    createdAt := 0
    updatedAt := 0 }

def sampleStore : Store :=
  { records := [sampleRecord], nextId := 2, time := 1 }

/-- A body whose fourteen destructured string fields are all present (the
four required ones as strings, the optional ones as explicit JSON null), so
every bind parameter is defined. -/
def sampleBody : SeoBody :=
  { pagePath := some (some "/services")
    pageTitle := some (some "Services")
    metaTitle := some (some "Our Services")
    metaDescription := some (some "what we do")
    content := some none
    keywords := some (some "web, design")
    canonicalUrl := some none
    ogTitle := some none
    ogDescription := some none
    ogImage := some none
    twitterTitle := some none
    twitterDescription := some none
    twitterImage := some none
    robots := some none
    seoScore := none }

def dupBody : SeoBody :=
  { sampleBody with pagePath := some (some "/about") }

/-- A body carrying only the four required fields: every optional
destructured field is absent, so `.run` throws the undefined-bind
TypeError. -/
def missingFieldBody : SeoBody :=
  { pagePath := some (some "/fresh")
    pageTitle := some (some "Fresh")
    metaTitle := some (some "Fresh Page")
    metaDescription := some (some "a page")
    content := none
    keywords := none
    canonicalUrl := none
    ogTitle := none
    ogDescription := none
    ogImage := none
    twitterTitle := none
    twitterDescription := none
    twitterImage := none
    robots := none
    seoScore := none }

/-! ## Helper lemmas -/

theorem find?_page_eq_none {s : Store} {p : String}
    (h : ∀ r ∈ s.records, ¬(r.pagePath = p ∧ r.isPublished = true)) :
    s.records.find? (fun r => r.pagePath == p && r.isPublished) = none := by
  rw [List.find?_eq_none]
  intro r hr
  simp only [Bool.and_eq_true, beq_iff_eq]
  intro hc
  exact h r hr ⟨hc.1, hc.2⟩

theorem find?_id_eq_none {s : Store} {i : Nat}
    (h : ∀ r ∈ s.records, r.id ≠ i) :
    s.records.find? (fun r => r.id == i) = none := by
  rw [List.find?_eq_none]
  intro r hr
  simpa using h r hr

theorem find?_id_eq_some {l : List SeoRecord} {r : SeoRecord}
    (hn : (l.map fun x => x.id).Nodup) (hm : r ∈ l) :
    l.find? (fun x => x.id == r.id) = some r := by
  induction l with
  | nil => cases hm
  | cons a tl ih =>
    simp only [List.map_cons, List.nodup_cons, List.mem_map] at hn
    obtain ⟨hna, hnt⟩ := hn
    rcases List.mem_cons.mp hm with rfl | hmt
    · exact List.find?_cons_of_pos _ (by simp)
    · have hne : (a.id == r.id) = false := by
        simp only [beq_eq_false_iff_ne, ne_eq]
        intro hEq
        exact hna ⟨r, hmt, hEq.symm⟩
      rw [List.find?_cons_of_neg _ (by simp [hne])]
      exact ih hnt hmt

theorem filter_ne_id_eq_erase {l : List SeoRecord} {r : SeoRecord}
    (hn : (l.map fun x => x.id).Nodup) (hm : r ∈ l) :
    (l.filter fun x => x.id != r.id) = l.erase r := by
  induction l with
  | nil => cases hm
  | cons a tl ih =>
    simp only [List.map_cons, List.nodup_cons, List.mem_map] at hn
    obtain ⟨hna, hnt⟩ := hn
    rcases List.mem_cons.mp hm with rfl | hmt
    · rw [List.erase_cons_head]
      rw [List.filter_cons_of_neg (by simp)]
      rw [List.filter_eq_self]
      intro x hx
      simp only [bne_iff_ne, ne_eq, decide_eq_true_eq]
      intro hEq
      exact hna ⟨x, hx, hEq⟩
    · have haid : a.id ≠ r.id := by
        intro hEq
        exact hna ⟨r, hmt, hEq.symm⟩
      rw [List.erase_cons_tail (by simp; intro hEq; exact haid (by rw [hEq]))]
      rw [List.filter_cons_of_pos (by simp [haid])]
      rw [ih hnt hmt]

theorem bool_eq_false {b : Bool} (h : ¬ b = true) : b = false := by
  cases b
  · rfl
  · exact absurd rfl h

theorem bool_ne_true {b : Bool} (h : b = false) : ¬ b = true := by
  intro h2
  rw [h] at h2
  exact Bool.noConfusion h2

theorem createSeo_pos {s : Store} {b : SeoBody}
    (hnb : noUndefinedBinds b = true)
    (hc : (requiredPresent b &&
      !(s.records.any fun r => r.pagePath == b.pagePath.join.getD "")) = true) :
    createSeo s b
      = ({ status := 201, success := true,
           payload := SeoPayload.record (newRecord s b) },
         { records := s.records ++ [newRecord s b], nextId := s.nextId + 1,
           time := s.time + 1 }) := by
  rw [createSeo, if_pos hnb]
  exact if_pos hc

theorem createSeo_constraint {s : Store} {b : SeoBody}
    (hnb : noUndefinedBinds b = true)
    (hc : (requiredPresent b &&
      !(s.records.any fun r => r.pagePath == b.pagePath.join.getD "")) = false) :
    createSeo s b
      = ({ status := 500, success := false,
           payload := SeoPayload.error "SQLITE_CONSTRAINT" }, s) := by
  rw [createSeo, if_pos hnb]
  exact if_neg (bool_ne_true hc)

theorem createSeo_badBind (s : Store) {b : SeoBody}
    (hnb : noUndefinedBinds b = false) :
    createSeo s b
      = ({ status := 500, success := false,
           payload := SeoPayload.error bindErrorMsg }, s) := by
  rw [createSeo]
  exact if_neg (bool_ne_true hnb)

theorem updateSeo_badBind (s : Store) (i : Nat) {b : SeoBody}
    (hnb : noUndefinedBinds b = false) :
    updateSeo s i b
      = ({ status := 500, success := false,
           payload := SeoPayload.error bindErrorMsg }, s) := by
  rw [updateSeo]
  exact if_neg (bool_ne_true hnb)

theorem updateSeo_none {s : Store} {i : Nat} {b : SeoBody}
    (hnb : noUndefinedBinds b = true)
    (hf : s.records.find? (fun x => x.id == i) = none) :
    updateSeo s i b
      = ({ status := 404, success := false,
           payload := SeoPayload.error "SEO data not found" }, s) := by
  rw [updateSeo, if_pos hnb, hf]

theorem updateSeo_found_pos {s : Store} {i : Nat} {b : SeoBody} {r : SeoRecord}
    (hnb : noUndefinedBinds b = true)
    (hf : s.records.find? (fun x => x.id == i) = some r)
    (hc : (requiredPresent b && !(s.records.any fun r2 =>
      r2.id != i && r2.pagePath == b.pagePath.join.getD "")) = true) :
    updateSeo s i b
      = ({ status := 200, success := true,
           payload := SeoPayload.record (applyBody r b s.time) },
         { records := s.records.map fun r2 =>
             if r2.id == i then applyBody r2 b s.time else r2
           nextId := s.nextId
           time := s.time + 1 }) := by
  rw [updateSeo, if_pos hnb, hf]
  exact if_pos hc

theorem updateSeo_found_neg {s : Store} {i : Nat} {b : SeoBody} {r : SeoRecord}
    (hnb : noUndefinedBinds b = true)
    (hf : s.records.find? (fun x => x.id == i) = some r)
    (hc : (requiredPresent b && !(s.records.any fun r2 =>
      r2.id != i && r2.pagePath == b.pagePath.join.getD "")) = false) :
    updateSeo s i b
      = ({ status := 500, success := false,
           payload := SeoPayload.error "SQLITE_CONSTRAINT" }, s) := by
  rw [updateSeo, if_pos hnb, hf]
  exact if_neg (bool_ne_true hc)

theorem deleteSeo_pos {s : Store} {i : Nat}
    (hA : (s.records.any fun r => r.id == i) = true) :
    deleteSeo s i
      = ({ status := 200, success := true,
           payload := SeoPayload.message "SEO data deleted successfully" },
         { records := s.records.filter fun r => r.id != i
           nextId := s.nextId
           time := s.time }) := by
  rw [deleteSeo]
  exact if_pos hA

theorem deleteSeo_neg {s : Store} {i : Nat}
    (hA : (s.records.any fun r => r.id == i) = false) :
    deleteSeo s i
      = ({ status := 404, success := false,
           payload := SeoPayload.error "SEO data not found" }, s) := by
  rw [deleteSeo]
  exact if_neg (by simp [hA])

theorem getSeoByPage_snd (s : Store) (p : String) :
    (getSeoByPage s p).2 = s := by
  unfold getSeoByPage
  cases s.records.find? (fun r => r.pagePath == p && r.isPublished) <;> rfl

theorem paths_nodup_after_update {l : List SeoRecord} {i t : Nat} {b : SeoBody}
    (hn : (l.map fun x => x.id).Nodup)
    (hp : (l.map fun x => x.pagePath).Nodup)
    (hcol : ∀ x ∈ l, x.id ≠ i → x.pagePath ≠ b.pagePath.join.getD "") :
    ((l.map fun x => if x.id == i then applyBody x b t else x).map
        fun x => x.pagePath).Nodup := by
  induction l with
  | nil => simp
  | cons a tl ih =>
    simp only [List.map_cons, List.nodup_cons, List.mem_map] at hn hp
    obtain ⟨hna, hnt⟩ := hn
    obtain ⟨hpa, hpt⟩ := hp
    simp only [List.map_cons, List.nodup_cons, List.mem_map]
    by_cases hai : a.id = i
    · have htl : ∀ x ∈ tl, x.id ≠ i := by
        intro x hx hEq
        exact hna ⟨x, hx, by rw [hEq, hai]⟩
      have hmap : (tl.map fun x => if x.id == i then applyBody x b t else x)
          = tl := by
        have hcg : ∀ x ∈ tl,
            (if x.id == i then applyBody x b t else x) = id x := by
          intro x hx
          rw [if_neg (by simp [htl x hx])]
          rfl
        rw [List.map_congr_left hcg, List.map_id]
      have hhead : (if a.id == i then applyBody a b t else a)
          = applyBody a b t := if_pos (by simp [hai])
      rw [hmap, hhead]
      constructor
      · rintro ⟨x, ⟨y, hy, rfl⟩, hpath⟩
        rw [if_neg (by simp [htl y hy])] at hpath
        exact hcol y (List.mem_cons_of_mem _ hy) (htl y hy) hpath
      · exact hpt
    · have hhead : (if a.id == i then applyBody a b t else a) = a :=
        if_neg (by simp [hai])
      rw [hhead]
      constructor
      · rintro ⟨x, ⟨y, hy, rfl⟩, hpath⟩
        by_cases hyi : y.id = i
        · rw [if_pos (by simp [hyi])] at hpath
          exact hcol a (List.mem_cons_self _ _) hai hpath.symm
        · rw [if_neg (by simp [hyi])] at hpath
          exact hpa ⟨y, hy, hpath⟩
      · exact ih hnt hpt fun x hx => hcol x (List.mem_cons_of_mem _ hx)

/-! ## Claim theorems -/

/-- C2 counterexample: a create with a fresh pagePath and all four required
fields present as strings is not always a 201 — when an optional
destructured field is absent from the body, `.run` throws the
undefined-bind TypeError and the handler answers 500. -/
theorem C2_counterexample :
    ¬ (∀ (s : Store) (b : SeoBody) (p : String), s.WF →
        b.pagePath = some (some p) →
        b.pageTitle.join.isSome = true →
        b.metaTitle.join.isSome = true →
        b.metaDescription.join.isSome = true →
        (∀ r ∈ s.records, r.pagePath ≠ p) →
        (createSeo s b).1.status = 201) := by
  intro h
  have h201 := h sampleStore missingFieldBody "/fresh" (by decide) rfl rfl rfl
    rfl (by decide)
  exact absurd h201 (by decide)

/-- C2 amended: a create whose pagePath is not already stored, whose four
required fields are present and non-null, and whose other destructured
fields are all present (possibly null, since the driver refuses to bind an
absent field) returns HTTP 201 with a record whose pagePath is the input
pagePath, whose isPublished is true, whose seoScore is the input value or 0
when absent, and whose id is freshly assigned and previously unused. -/
theorem C2_create_success (s : Store) (b : SeoBody) (p : String)
    (hw : s.WF)
    (hnb : noUndefinedBinds b = true)
    (hpp : b.pagePath = some (some p))
    (ht : b.pageTitle.join.isSome = true)
    (hmt : b.metaTitle.join.isSome = true)
    (hmd : b.metaDescription.join.isSome = true)
    (hfresh : ∀ r ∈ s.records, r.pagePath ≠ p) :
    ∃ r', (createSeo s b).1.status = 201 ∧ (createSeo s b).1.success = true ∧
      (createSeo s b).1.payload = SeoPayload.record r' ∧
      r'.pagePath = p ∧ r'.isPublished = true ∧
      r'.seoScore = b.seoScore.getD 0 ∧
      r'.id = s.nextId ∧ r'.id ∉ s.records.map (fun x => x.id) ∧
      (createSeo s b).2.records = s.records ++ [r'] ∧
      (createSeo s b).2.nextId = s.nextId + 1 := by
  have hreq : requiredPresent b = true := by
    rw [requiredPresent, hpp, ht, hmt, hmd]
    rfl
  have hgetD : b.pagePath.join.getD "" = p := by rw [hpp]; rfl
  have hany : (s.records.any fun r => r.pagePath == b.pagePath.join.getD "")
      = false := by
    rw [hgetD, List.any_eq_false]
    intro r hr
    simpa using hfresh r hr
  have hnotmem : s.nextId ∉ s.records.map (fun x => x.id) := by
    intro hmem
    obtain ⟨x, hx, hid⟩ := List.mem_map.mp hmem
    exact absurd hid (Nat.ne_of_lt (hw.2 x hx))
  have hcond : (requiredPresent b &&
      !(s.records.any fun r => r.pagePath == b.pagePath.join.getD ""))
      = true := by
    rw [hreq, hany]
    rfl
  have heq := createSeo_pos hnb hcond
  refine ⟨newRecord s b, ?_, ?_, ?_, hgetD, rfl, rfl, rfl, hnotmem, ?_, ?_⟩ <;>
    rw [heq]

/-- Witness for the amended C2 at a concrete store and body. -/
theorem C2_witness :
    ∃ r', (createSeo sampleStore sampleBody).1.status = 201 ∧
      (createSeo sampleStore sampleBody).1.success = true ∧
      (createSeo sampleStore sampleBody).1.payload = SeoPayload.record r' ∧
      r'.pagePath = "/services" ∧ r'.isPublished = true ∧
      r'.seoScore = sampleBody.seoScore.getD 0 ∧
      r'.id = sampleStore.nextId ∧
      r'.id ∉ sampleStore.records.map (fun x => x.id) ∧
      (createSeo sampleStore sampleBody).2.records
        = sampleStore.records ++ [r'] ∧
      (createSeo sampleStore sampleBody).2.nextId = sampleStore.nextId + 1 :=
  C2_create_success sampleStore sampleBody "/services" (by decide) rfl rfl rfl
    rfl rfl (by decide)

/-- C5: deleting an existing id removes exactly that record (all others kept
in order) and returns HTTP 200; deleting a nonexistent id returns HTTP 404
and changes nothing. -/
theorem C5_delete (s : Store) (hw : s.WF) :
    (∀ r ∈ s.records,
      (deleteSeo s r.id).1.status = 200 ∧ (deleteSeo s r.id).1.success = true ∧
      (deleteSeo s r.id).2.records = s.records.erase r ∧
      (deleteSeo s r.id).2.nextId = s.nextId) ∧
    (∀ i : Nat, (∀ r ∈ s.records, r.id ≠ i) →
      (deleteSeo s i).1.status = 404 ∧ (deleteSeo s i).1.success = false ∧
      (deleteSeo s i).2 = s) := by
  constructor
  · intro r hr
    have hany : (s.records.any fun x => x.id == r.id) = true := by
      rw [List.any_eq_true]
      exact ⟨r, hr, by simp⟩
    have herase := filter_ne_id_eq_erase hw.1 hr
    refine ⟨?_, ?_, ?_, ?_⟩ <;> simp [deleteSeo, hany, herase]
  · intro i h
    have hany : (s.records.any fun x => x.id == i) = false := by
      rw [List.any_eq_false]
      intro x hx
      simpa using h x hx
    refine ⟨?_, ?_, ?_⟩ <;> simp [deleteSeo, hany]

/-- Witness for C5 at a concrete store: delete the stored record, and delete
a nonexistent id. -/
theorem C5_witness :
    ((deleteSeo sampleStore sampleRecord.id).1.status = 200 ∧
     (deleteSeo sampleStore sampleRecord.id).1.success = true ∧
     (deleteSeo sampleStore sampleRecord.id).2.records
       = sampleStore.records.erase sampleRecord ∧
     (deleteSeo sampleStore sampleRecord.id).2.nextId = sampleStore.nextId) ∧
    ((deleteSeo sampleStore 42).1.status = 404 ∧
     (deleteSeo sampleStore 42).1.success = false ∧
     (deleteSeo sampleStore 42).2 = sampleStore) :=
  ⟨(C5_delete sampleStore (by decide)).1 sampleRecord (by decide),
   (C5_delete sampleStore (by decide)).2 42 (by decide)⟩

/-- C6: the list operation is read-only and returns exactly the stored
records ordered by createdAt descending; under the primary-key invariant
every stored record appears exactly once in the returned array. -/
theorem C6_list (s : Store) (hw : s.WF) :
    (listSeo s).2 = s ∧
    ∃ l, (listSeo s).1.payload = SeoPayload.records l ∧
      (listSeo s).1.status = 200 ∧ (listSeo s).1.success = true ∧
      List.Perm l s.records ∧ List.Sorted createdAtGe l ∧
      ∀ r ∈ s.records, l.count r = 1 := by
  refine ⟨rfl, orderByCreatedAtDesc s.records, rfl, rfl, rfl, ?_, ?_, ?_⟩
  · exact List.perm_insertionSort createdAtGe s.records
  · exact List.sorted_insertionSort createdAtGe s.records
  · intro r hr
    unfold orderByCreatedAtDesc
    rw [(List.perm_insertionSort createdAtGe s.records).count_eq]
    exact List.count_eq_one_of_mem (List.Nodup.of_map _ hw.1) hr

/-- C3 counterexample: it is false that every mutable field, isPublished
included, is replaceable via update — no request body can change a stored
record's isPublished, because the UPDATE statement's SET list omits that
column. -/
theorem C3_counterexample :
    ¬ (∀ (s : Store) (r : SeoRecord), r ∈ s.records → ∀ (v : Bool),
        ∃ (b : SeoBody) (u : SeoRecord),
          (updateSeo s r.id b).1.payload = SeoPayload.record u ∧
          u.isPublished = v) := by
  intro hclaim
  obtain ⟨b, u, hpay, hpub⟩ :=
    hclaim sampleStore sampleRecord (by simp [sampleStore]) false
  have hfind : sampleStore.records.find? (fun x => x.id == sampleRecord.id)
      = some sampleRecord := rfl
  by_cases hnb : noUndefinedBinds b = true
  · by_cases hc : (requiredPresent b && !(sampleStore.records.any fun r2 =>
        r2.id != sampleRecord.id &&
          r2.pagePath == b.pagePath.join.getD "")) = true
    · have heq := updateSeo_found_pos hnb hfind hc
      rw [heq] at hpay
      have hu : u = applyBody sampleRecord b sampleStore.time :=
        (SeoPayload.record.injEq _ _).mp hpay.symm
      rw [hu] at hpub
      exact absurd hpub (by simp [applyBody, sampleRecord])
    · have heq := updateSeo_found_neg hnb hfind (bool_eq_false hc)
      rw [heq] at hpay
      cases hpay
  · have heq := updateSeo_badBind sampleStore sampleRecord.id
      (bool_eq_false hnb)
    rw [heq] at hpay
    cases hpay

/-- C3 amended: an update matching an existing id, whose destructured body
fields are all present (the driver refuses to bind an absent field), whose
four NOT NULL fields are non-null and whose pagePath does not duplicate a
different record's, replaces every column in the SET list with the body
value (seoScore defaulting to 0 when absent) and refreshes updatedAt, while
id, createdAt and isPublished keep their stored values; other records are
untouched. -/
theorem C3_update_replaces_fields (s : Store) (r : SeoRecord) (b : SeoBody)
    (hw : s.WF)
    (hr : r ∈ s.records)
    (hnb : noUndefinedBinds b = true)
    (hreq : requiredPresent b = true)
    (hcol : ∀ r2 ∈ s.records, r2.id ≠ r.id →
      r2.pagePath ≠ b.pagePath.join.getD "") :
    ∃ r', (updateSeo s r.id b).1.status = 200 ∧
      (updateSeo s r.id b).1.success = true ∧
      (updateSeo s r.id b).1.payload = SeoPayload.record r' ∧
      r'.id = r.id ∧ r'.createdAt = r.createdAt ∧
      r'.isPublished = r.isPublished ∧
      r'.pagePath = b.pagePath.join.getD "" ∧
      r'.pageTitle = b.pageTitle.join.getD "" ∧
      r'.metaTitle = b.metaTitle.join.getD "" ∧
      r'.metaDescription = b.metaDescription.join.getD "" ∧
      r'.content = b.content.join ∧ r'.keywords = b.keywords.join ∧
      r'.canonicalUrl = b.canonicalUrl.join ∧ r'.ogTitle = b.ogTitle.join ∧
      r'.ogDescription = b.ogDescription.join ∧
      r'.ogImage = b.ogImage.join ∧
      r'.twitterTitle = b.twitterTitle.join ∧
      r'.twitterDescription = b.twitterDescription.join ∧
      r'.twitterImage = b.twitterImage.join ∧ r'.robots = b.robots.join ∧
      r'.seoScore = b.seoScore.getD 0 ∧ r'.updatedAt = s.time ∧
      (updateSeo s r.id b).2.records
        = s.records.map (fun x => if x.id == r.id then r' else x) ∧
      (updateSeo s r.id b).2.nextId = s.nextId := by
  have hfind := find?_id_eq_some hw.1 hr
  have hany : (s.records.any fun r2 =>
      r2.id != r.id && r2.pagePath == b.pagePath.join.getD "") = false := by
    rw [List.any_eq_false]
    intro x hx
    simp only [Bool.and_eq_true, bne_iff_ne, ne_eq, beq_iff_eq, not_and]
    exact fun h1 => hcol x hx h1
  have hcond : (requiredPresent b && !(s.records.any fun r2 =>
      r2.id != r.id && r2.pagePath == b.pagePath.join.getD "")) = true := by
    rw [hreq, hany]
    rfl
  have hmapeq : (s.records.map fun r2 =>
        if r2.id == r.id then applyBody r2 b s.time else r2)
      = s.records.map fun x =>
        if x.id == r.id then applyBody r b s.time else x := by
    apply List.map_congr_left
    intro x hx
    by_cases hEq : x.id = r.id
    · have hxr : x = r := List.inj_on_of_nodup_map hw.1 hx hr hEq
      rw [hxr]
    · simp [hEq]
  have heq := updateSeo_found_pos hnb hfind hcond
  refine ⟨applyBody r b s.time, ?_, ?_, ?_, rfl, rfl, rfl, rfl, rfl, rfl, rfl,
          rfl, rfl, rfl, rfl, rfl, rfl, rfl, rfl, rfl, rfl, rfl, rfl, ?_, ?_⟩
  · rw [heq]
  · rw [heq]
  · rw [heq]
  · rw [heq]
    exact hmapeq
  · rw [heq]

/-- Witness for the amended C3 at a concrete store, record and body. -/
theorem C3_witness :
    ∃ r', (updateSeo sampleStore sampleRecord.id sampleBody).1.status = 200 ∧
      (updateSeo sampleStore sampleRecord.id sampleBody).1.success = true ∧
      (updateSeo sampleStore sampleRecord.id sampleBody).1.payload
        = SeoPayload.record r' ∧
      r'.id = sampleRecord.id ∧ r'.createdAt = sampleRecord.createdAt ∧
      r'.isPublished = sampleRecord.isPublished ∧
      r'.pagePath = sampleBody.pagePath.join.getD "" ∧
      r'.pageTitle = sampleBody.pageTitle.join.getD "" ∧
      r'.metaTitle = sampleBody.metaTitle.join.getD "" ∧
      r'.metaDescription = sampleBody.metaDescription.join.getD "" ∧
      r'.content = sampleBody.content.join ∧
      r'.keywords = sampleBody.keywords.join ∧
      r'.canonicalUrl = sampleBody.canonicalUrl.join ∧
      r'.ogTitle = sampleBody.ogTitle.join ∧
      r'.ogDescription = sampleBody.ogDescription.join ∧
      r'.ogImage = sampleBody.ogImage.join ∧
      r'.twitterTitle = sampleBody.twitterTitle.join ∧
      r'.twitterDescription = sampleBody.twitterDescription.join ∧
      r'.twitterImage = sampleBody.twitterImage.join ∧
      r'.robots = sampleBody.robots.join ∧
      r'.seoScore = sampleBody.seoScore.getD 0 ∧
      r'.updatedAt = sampleStore.time ∧
      (updateSeo sampleStore sampleRecord.id sampleBody).2.records
        = sampleStore.records.map
            (fun x => if x.id == sampleRecord.id then r' else x) ∧
      (updateSeo sampleStore sampleRecord.id sampleBody).2.nextId
        = sampleStore.nextId :=
  C3_update_replaces_fields sampleStore sampleRecord sampleBody (by decide)
    (by decide) (by decide) (by decide) (by decide)

/-- Witness for C6 at a concrete store. -/
theorem C6_witness :
    (listSeo sampleStore).2 = sampleStore ∧
    ∃ l, (listSeo sampleStore).1.payload = SeoPayload.records l ∧
      (listSeo sampleStore).1.status = 200 ∧
      (listSeo sampleStore).1.success = true ∧
      List.Perm l sampleStore.records ∧ List.Sorted createdAtGe l ∧
      ∀ r ∈ sampleStore.records, l.count r = 1 :=
  C6_list sampleStore (by decide)

/-- C1: a get-by-path request whose pagePath matches no stored record with
isPublished true returns HTTP 200 (not 404) with success true and a fallback
record whose pagePath equals the requested path and whose isPublished is
true. -/
theorem C1_get_by_path_fallback (s : Store) (p : String)
    (h : ∀ r ∈ s.records, ¬(r.pagePath = p ∧ r.isPublished = true)) :
    (getSeoByPage s p).1.status = 200 ∧ (getSeoByPage s p).1.success = true ∧
    (getSeoByPage s p).1.payload = SeoPayload.fallback (fallbackSeo p) ∧
    (fallbackSeo p).pagePath = p ∧ (fallbackSeo p).isPublished = true := by
  have hf := find?_page_eq_none h
  refine ⟨?_, ?_, ?_, rfl, rfl⟩ <;> simp [getSeoByPage, hf]

/-- Witness for C1 at a concrete store and path. -/
theorem C1_witness :
    (getSeoByPage sampleStore "/missing").1.status = 200 ∧
    (getSeoByPage sampleStore "/missing").1.success = true ∧
    (getSeoByPage sampleStore "/missing").1.payload
      = SeoPayload.fallback (fallbackSeo "/missing") ∧
    (fallbackSeo "/missing").pagePath = "/missing" ∧
    (fallbackSeo "/missing").isPublished = true :=
  C1_get_by_path_fallback sampleStore "/missing" (by decide)

/-- C4 counterexample: an update on a nonexistent id is not always a 404 —
with an optional destructured field absent from the body, `.run` throws the
undefined-bind TypeError before the row count is computed and the handler
answers 500. -/
theorem C4_counterexample :
    ¬ (∀ (s : Store) (i : Nat) (b : SeoBody),
        (∀ r ∈ s.records, r.id ≠ i) →
        (updateSeo s i b).1.status = 404 ∧
        (updateSeo s i b).1.success = false ∧ (updateSeo s i b).2 = s) := by
  intro h
  have h404 := (h sampleStore 99 missingFieldBody (by decide)).1
  exact absurd h404 (by decide)

/-- C4 amended: for an update whose id matches no stored record, when every
destructured body field is present the handler returns HTTP 404 with
success false and an unchanged store; when some destructured field is
absent, the bind throws first and the handler returns HTTP 500 with success
false, the store still unchanged. -/
theorem C4_update_missing_id (s : Store) (i : Nat) (b : SeoBody)
    (h : ∀ r ∈ s.records, r.id ≠ i) :
    (noUndefinedBinds b = true →
      (updateSeo s i b).1.status = 404 ∧ (updateSeo s i b).1.success = false ∧
      (updateSeo s i b).2 = s) ∧
    (noUndefinedBinds b = false →
      (updateSeo s i b).1.status = 500 ∧ (updateSeo s i b).1.success = false ∧
      (updateSeo s i b).2 = s) := by
  constructor
  · intro hnb
    have heq := updateSeo_none hnb (find?_id_eq_none h)
    exact ⟨by rw [heq], by rw [heq], by rw [heq]⟩
  · intro hnb
    have heq := updateSeo_badBind s i hnb
    exact ⟨by rw [heq], by rw [heq], by rw [heq]⟩

/-- Witness for the amended C4: a nonexistent id with a fully-bound body is
a 404, and with a body missing optional fields it is a 500; the store is
untouched either way. -/
theorem C4_witness :
    ((updateSeo sampleStore 99 sampleBody).1.status = 404 ∧
     (updateSeo sampleStore 99 sampleBody).1.success = false ∧
     (updateSeo sampleStore 99 sampleBody).2 = sampleStore) ∧
    ((updateSeo sampleStore 99 missingFieldBody).1.status = 500 ∧
     (updateSeo sampleStore 99 missingFieldBody).1.success = false ∧
     (updateSeo sampleStore 99 missingFieldBody).2 = sampleStore) :=
  ⟨(C4_update_missing_id sampleStore 99 sampleBody (by decide)).1 rfl,
   (C4_update_missing_id sampleStore 99 missingFieldBody (by decide)).2 rfl⟩

/-- C7: under the store invariants, creating a second record with an already
stored pagePath fails as a request failure — HTTP 500 with success false and
the store untouched, so exactly one record with that path remains — and
every operation preserves uniqueness of pagePath across the store. -/
theorem C7_pagePath_unique (s : Store) (hw : s.WF) (hpu : PathsUnique s) :
    (∀ (b : SeoBody) (p : String), b.pagePath = some (some p) →
      (∃ r ∈ s.records, r.pagePath = p) →
      (createSeo s b).1.status = 500 ∧ (createSeo s b).1.success = false ∧
      (createSeo s b).2 = s ∧
      ((createSeo s b).2.records.map fun r => r.pagePath).count p = 1) ∧
    (∀ b, PathsUnique (createSeo s b).2) ∧
    (∀ i b, PathsUnique (updateSeo s i b).2) ∧
    (∀ i, PathsUnique (deleteSeo s i).2) ∧
    (∀ p, PathsUnique (getSeoByPage s p).2) := by
  refine ⟨?_, ?_, ?_, ?_, ?_⟩
  · rintro b p hbp ⟨r0, hr0, hr0p⟩
    have hgetD : b.pagePath.join.getD "" = p := by rw [hbp]; rfl
    have hany : (s.records.any fun r => r.pagePath == b.pagePath.join.getD "")
        = true := by
      rw [hgetD, List.any_eq_true]
      exact ⟨r0, hr0, by simp [hr0p]⟩
    have h500 : (createSeo s b).1.status = 500 ∧
        (createSeo s b).1.success = false ∧ (createSeo s b).2 = s := by
      by_cases hnb : noUndefinedBinds b = true
      · have heq := createSeo_constraint hnb (by rw [hany]; simp)
        exact ⟨by rw [heq], by rw [heq], by rw [heq]⟩
      · have heq := createSeo_badBind s (bool_eq_false hnb)
        exact ⟨by rw [heq], by rw [heq], by rw [heq]⟩
    refine ⟨h500.1, h500.2.1, h500.2.2, ?_⟩
    rw [h500.2.2]
    exact List.count_eq_one_of_mem hpu (List.mem_map.mpr ⟨r0, hr0, hr0p⟩)
  · intro b
    by_cases hnb : noUndefinedBinds b = true
    · by_cases hc : (requiredPresent b &&
          !(s.records.any fun r => r.pagePath == b.pagePath.join.getD ""))
          = true
      · have heq := createSeo_pos hnb hc
        have hany : (s.records.any fun r =>
            r.pagePath == b.pagePath.join.getD "") = false := by
          cases hA : (s.records.any fun r =>
              r.pagePath == b.pagePath.join.getD "")
          · rfl
          · rw [hA] at hc
            simp at hc
        have hnotin : b.pagePath.join.getD ""
            ∉ s.records.map fun r => r.pagePath := by
          intro hmem
          obtain ⟨x, hx, hxp⟩ := List.mem_map.mp hmem
          rw [List.any_eq_false] at hany
          exact hany x hx (by simp [hxp])
        unfold PathsUnique
        rw [heq]
        simp only [List.map_append]
        rw [List.nodup_append]
        refine ⟨hpu, List.nodup_singleton _, ?_⟩
        intro x hx hxs
        simp only [List.map_cons, List.map_nil, List.mem_singleton] at hxs
        subst hxs
        exact hnotin hx
      · have heq := createSeo_constraint hnb (bool_eq_false hc)
        unfold PathsUnique
        rw [heq]
        exact hpu
    · have heq := createSeo_badBind s (bool_eq_false hnb)
      unfold PathsUnique
      rw [heq]
      exact hpu
  · intro i b
    by_cases hnb : noUndefinedBinds b = true
    · cases hf : s.records.find? (fun x => x.id == i) with
      | none =>
        have heq := updateSeo_none hnb hf
        unfold PathsUnique
        rw [heq]
        exact hpu
      | some r =>
        by_cases hc : (requiredPresent b && !(s.records.any fun r2 =>
            r2.id != i && r2.pagePath == b.pagePath.join.getD "")) = true
        · have heq := updateSeo_found_pos hnb hf hc
          have hany : (s.records.any fun r2 =>
              r2.id != i && r2.pagePath == b.pagePath.join.getD "")
              = false := by
            cases hA : (s.records.any fun r2 =>
                r2.id != i && r2.pagePath == b.pagePath.join.getD "")
            · rfl
            · rw [hA] at hc
              simp at hc
          unfold PathsUnique
          rw [heq]
          apply paths_nodup_after_update hw.1 hpu
          intro x hx hxi
          rw [List.any_eq_false] at hany
          have hx2 := hany x hx
          simp only [Bool.and_eq_true, bne_iff_ne, ne_eq, beq_iff_eq,
            not_and] at hx2
          exact hx2 hxi
        · have heq := updateSeo_found_neg hnb hf (bool_eq_false hc)
          unfold PathsUnique
          rw [heq]
          exact hpu
    · have heq := updateSeo_badBind s i (bool_eq_false hnb)
      unfold PathsUnique
      rw [heq]
      exact hpu
  · intro i
    by_cases hA : (s.records.any fun r => r.id == i) = true
    · have heq := deleteSeo_pos hA
      unfold PathsUnique
      rw [heq]
      exact List.Nodup.sublist
        (List.Sublist.map _ (List.filter_sublist _)) hpu
    · have heq := deleteSeo_neg (bool_eq_false hA)
      unfold PathsUnique
      rw [heq]
      exact hpu
  · intro p
    unfold PathsUnique
    rw [getSeoByPage_snd]
    exact hpu

/-- Witness for C7: duplicate create at a concrete store is a 500 that keeps
the store intact, and the invariant survives a concrete create, update and
delete. -/
theorem C7_witness :
    ((createSeo sampleStore dupBody).1.status = 500 ∧
     (createSeo sampleStore dupBody).1.success = false ∧
     (createSeo sampleStore dupBody).2 = sampleStore ∧
     ((createSeo sampleStore dupBody).2.records.map
        fun r => r.pagePath).count "/about" = 1) ∧
    PathsUnique (createSeo sampleStore sampleBody).2 ∧
    PathsUnique (updateSeo sampleStore 1 sampleBody).2 ∧
    PathsUnique (deleteSeo sampleStore 1).2 ∧
    PathsUnique (getSeoByPage sampleStore "/about").2 :=
  ⟨(C7_pagePath_unique sampleStore (by decide) (by decide)).1 dupBody "/about"
      rfl ⟨sampleRecord, by decide, rfl⟩,
   (C7_pagePath_unique sampleStore (by decide) (by decide)).2.1 sampleBody,
   (C7_pagePath_unique sampleStore (by decide) (by decide)).2.2.1 1 sampleBody,
   (C7_pagePath_unique sampleStore (by decide) (by decide)).2.2.2.1 1,
   (C7_pagePath_unique sampleStore (by decide) (by decide)).2.2.2.2 "/about"⟩

/-- C8: while the module-level handle is unset every other Storage Gateway
operation (obtaining the connection handle) fails with the uninitialized
error; once initializeDatabase has completed successfully, getDatabase
returns the live handle without error. -/
theorem C8_gateway_initialization :
    getDatabase none
      = Except.error "Database not initialized. Call initializeDatabase() first." ∧
    ∀ (env : InitEnv) (db db' : Option DbHandle) (h : DbHandle),
      initializeDatabase env db = (Except.ok h, db') →
      getDatabase db' = Except.ok h := by
  refine ⟨rfl, ?_⟩
  intro env db db' h hinit
  unfold initializeDatabase at hinit
  by_cases he : env.openFails
  · simp [he] at hinit
  · simp only [he, if_neg, Bool.false_eq_true, if_false, Prod.mk.injEq] at hinit
    obtain ⟨h1, h2⟩ := hinit
    cases h1
    rw [← h2]
    rfl

/-- Witness for C8: initialize from the uninitialized state with no failures,
then read the handle back. -/
theorem C8_witness : getDatabase (some ⟨dbFile⟩) = Except.ok ⟨dbFile⟩ :=
  C8_gateway_initialization.2 ⟨false, false⟩ none (some ⟨dbFile⟩) ⟨dbFile⟩ rfl

/-- C9: during initialization a failing add-column step (content column
already exists) is suppressed and initialization still succeeds, whatever
that flag is; a store-open failure is propagated to the caller. -/
theorem C9_init_failure_semantics (c : Bool) (db : Option DbHandle) :
    (initializeDatabase ⟨false, c⟩ db).1 = Except.ok ⟨dbFile⟩ ∧
    (initializeDatabase ⟨false, c⟩ db).2 = some ⟨dbFile⟩ ∧
    (initializeDatabase ⟨true, c⟩ db).1
      = Except.error "Database initialization error" ∧
    (initializeDatabase ⟨true, c⟩ db).2 = db :=
  ⟨rfl, rfl, rfl, rfl⟩

/-- C10: get-by-path never changes the store, and the synthesized fallback is
a pure function of the requested path with metaDescription "Digital Agency
Services", seoScore 85 and robots "index, follow"; when no published record
matches, the response payload is exactly that fallback. -/
theorem C10_get_by_path_readonly (s : Store) (p : String) :
    (getSeoByPage s p).2 = s ∧
    (fallbackSeo p).metaDescription = "Digital Agency Services" ∧
    (fallbackSeo p).seoScore = 85 ∧
    (fallbackSeo p).robots = "index, follow" ∧
    ((∀ r ∈ s.records, ¬(r.pagePath = p ∧ r.isPublished = true)) →
      (getSeoByPage s p).1.payload = SeoPayload.fallback (fallbackSeo p)) := by
  refine ⟨?_, rfl, rfl, rfl, ?_⟩
  · unfold getSeoByPage
    cases s.records.find? (fun r => r.pagePath == p && r.isPublished) <;> rfl
  · intro h
    have hf := find?_page_eq_none h
    simp [getSeoByPage, hf]

/-- Witness for C10 at a concrete store and path, with the no-match
hypothesis of the final conjunct discharged. -/
theorem C10_witness :
    (getSeoByPage sampleStore "/x").2 = sampleStore ∧
    (getSeoByPage sampleStore "/x").1.payload
      = SeoPayload.fallback (fallbackSeo "/x") :=
  ⟨(C10_get_by_path_readonly sampleStore "/x").1,
   (C10_get_by_path_readonly sampleStore "/x").2.2.2.2 (by decide)⟩

end Maydiv
